import Mathlib

/-!
Shallow embedding of the cw-abc bonding-curve contract
(contracts/external/cw-abc/src/contract.rs) and the parts of its data
model it uses.  Uint128 values are modelled as Nat; the unchecked
Uint128 addition of cosmwasm panics (host trap) when the mathematical
sum exceeds 2^128 - 1, which we model as a distinct error outcome
.panic, while checked_sub returns a recoverable OverflowError (.overflow).
-/

namespace CwAbc

/-- Maximum value representable by a Uint128. -/
def UINT128_MAX : Nat := 2 ^ 128 - 1

/-- Error outcomes of the contract paths modelled here.  Payment errors
come from the cw-utils payment helpers, .overflow is the returned
StdError::Overflow produced via checked_sub + map_err, and .panic is the
host trap raised by the unchecked Uint128 addition operator. -/
inductive Err where
  | paymentNoFunds
  | paymentMultipleDenoms
  | paymentMissingDenom (denom : String)
  | paymentNonPayable
  | hatcherNotAllowlisted (sender : String)
  | overflow
  | supplyTokenError (msg : String)
  | configError
  | panic
  deriving DecidableEq, Repr

/-- Unchecked Uint128 addition as used by the source (reserve + payment
and reserve += payment): traps (panics) when the sum leaves the range. -/
def uAdd (a b : Nat) : Except Err Nat :=
  if a + b ≤ UINT128_MAX then .ok (a + b) else .error .panic

/-- Uint128.checked_sub mapped to StdError::overflow, as in the source. -/
def checkedSub (a b : Nat) : Except Err Nat :=
  if b ≤ a then .ok (a - b) else .error .overflow

/-- A single attached coin (denom and Uint128 amount). -/
structure Coin where
  denom : String
  amount : Nat
  deriving DecidableEq, Repr

/-- Payment helper cw_utils::must_pay used by the source: requires the
attached funds to be exactly one nonzero coin of the expected denom. -/
def must_pay (funds : List Coin) (denom : String) : Except Err Nat :=
  match funds with
  | [] => .error .paymentNoFunds
  | [c] =>
      if c.amount = 0 then .error .paymentNoFunds
      else if c.denom = denom then .ok c.amount
      else .error (.paymentMissingDenom denom)
  | _ => .error .paymentMultipleDenoms

/-- Payment helper cw_utils::nonpayable used by instantiate: fails when
any funds are attached. -/
def nonpayable (funds : List Coin) : Except Err Unit :=
  match funds with
  | [] => .ok ()
  | _ => .error .paymentNonPayable

/-- DecimalPlaces from curves.rs: supply and reserve token decimals. -/
structure DecimalPlaces where
  supply : Nat
  reserve : Nat
  deriving DecidableEq, Repr

/-- Modelled from the spec: DecimalPlaces::new of curves.rs (the file is
not under src/); it just records the two decimals values, as confirmed
by its infallible use in instantiate. -/
def DecimalPlaces.new (supply reserve : Nat) : DecimalPlaces :=
  { supply := supply, reserve := reserve }

/-- CurveState from state.rs: the mutable ledger entity. -/
structure CurveState where
  reserve : Nat
  supply : Nat
  reserve_denom : String
  decimals : DecimalPlaces
  deriving DecidableEq, Repr

/-- Modelled from the spec: CurveState::new of state.rs (the file is not
under src/); created at instantiation with reserve = 0 and supply = 0. -/
def CurveState.new (reserve_denom : String) (decimals : DecimalPlaces) : CurveState :=
  { reserve := 0, supply := 0, reserve_denom := reserve_denom, decimals := decimals }

/-- A curve exposes the two integer maps the buy and sell paths use.
The curve math of curves.rs is not under src/, so the execute paths are
verified for an arbitrary curve, exactly as do_execute takes curve_fn
as a parameter. -/
structure Curve where
  supply : Nat → Nat
  reserve : Nat → Nat

/-- CurveFn from abc.rs: builds a Curve from the decimal places. -/
def CurveFn : Type := DecimalPlaces → Curve

/-- Modelled from the spec: CurveType of abc.rs (the file is not under
src/) — a closed set of variants, each carrying its numeric parameters. -/
inductive CurveType where
  | constant (value : Nat) (scale : Nat)
  | linear (slope : Nat) (scale : Nat)
  | squareRoot (slope : Nat) (scale : Nat)
  deriving DecidableEq, Repr

/-- Modelled from the spec: HatchPhase state of abc.rs — the hatcher set
accumulated during Hatch.  Set semantics via List.insert (idempotent). -/
structure HatchPhase where
  hatchers : List String
  deriving DecidableEq, Repr

/-- Modelled from the spec: CommonsPhase of abc.rs — Hatch carrying the
hatcher set, Open, Closed. -/
inductive CommonsPhase where
  | Hatch (h : HatchPhase)
  | Open
  | Closed
  deriving DecidableEq, Repr

/-- Modelled from the spec: HatchConfig of abc.rs, with the fields the
contract and its tests use; initial_raise is a (min, max) pair. -/
structure HatchConfig where
  allowlist : Option (List String)
  initial_raise : Nat × Nat
  initial_price : Nat
  initial_allocation : Nat
  reserve_percentage : Nat
  deriving DecidableEq, Repr

/-- Modelled from the spec: HatchConfig::assert_allowlisted of abc.rs —
when an allowlist is configured the sender must be a member, otherwise
any sender is allowed. -/
def HatchConfig.assert_allowlisted (cfg : HatchConfig) (sender : String) : Except Err Unit :=
  match cfg.allowlist with
  | none => .ok ()
  | some l => if sender ∈ l then .ok () else .error (.hatcherNotAllowlisted sender)

/-- CommonsPhaseConfig of abc.rs: the contract accesses its hatch field. -/
structure CommonsPhaseConfig where
  hatch : HatchConfig
  deriving DecidableEq, Repr

/-- Modelled from the spec: CommonsPhaseConfig::validate of abc.rs —
initial_raise.min must not exceed initial_raise.max and the reserve
percentage must be at most 100. -/
def CommonsPhaseConfig.validate (cfg : CommonsPhaseConfig) : Except Err Unit :=
  if cfg.hatch.initial_raise.1 ≤ cfg.hatch.initial_raise.2 ∧
      cfg.hatch.reserve_percentage ≤ 100 then .ok ()
  else .error .configError

/-- Display metadata of the supply token (token_bindings Metadata; only
the fields the repository exercises are carried, the others play no role
in any verified path). -/
structure Metadata where
  name : Option String
  symbol : Option String
  description : Option String
  deriving DecidableEq, Repr

/-- SupplyToken of abc.rs as used by InstantiateMsg. -/
structure SupplyToken where
  subdenom : String
  metadata : Metadata
  decimals : Nat
  deriving DecidableEq, Repr

/-- ReserveToken of abc.rs as used by InstantiateMsg. -/
structure ReserveToken where
  denom : String
  decimals : Nat
  deriving DecidableEq, Repr

/-- InstantiateMsg from msg.rs. -/
structure InstantiateMsg where
  supply : SupplyToken
  reserve : ReserveToken
  curve_type : CurveType
  phase_config : CommonsPhaseConfig
  deriving DecidableEq, Repr

/-- InstantiateMsg::validate from msg.rs: nonempty subdenom, then the
phase-config invariants. -/
def InstantiateMsg.validate (m : InstantiateMsg) : Except Err Unit :=
  if m.supply.subdenom.isEmpty then
    .error (.supplyTokenError "Token subdenom must not be empty.")
  else
    m.phase_config.validate

/-- Side-effect intents emitted by the contract: token-factory messages
and the bank send of the sell path (a single coin, as coins builds). -/
inductive Msg where
  | createDenom (subdenom : String) (metadata : Metadata)
  | mintTokens (denom : String) (amount : Nat) (mint_to_address : String)
  | burnTokens (denom : String) (amount : Nat) (burn_from_address : String)
  | bankSend (to_address : String) (amount : Nat) (denom : String)
  deriving DecidableEq, Repr

/-- Response of an execute path: the ordered effect intents and the
attributes, exactly as assembled by the source. -/
structure Response where
  messages : List Msg
  attributes : List (String × String)
  deriving DecidableEq, Repr

/-- The persisted slots an execute call reads and writes: CURVE_STATE,
PHASE, PHASE_CONFIG and SUPPLY_DENOM.  (CURVE_TYPE only selects the
curve_fn, which the execute paths take as a parameter, as in
do_execute.) -/
structure ContractState where
  curve_state : CurveState
  phase : CommonsPhase
  phase_config : CommonsPhaseConfig
  supply_denom : String
  deriving DecidableEq, Repr

/-- execute_buy from contract.rs, translated line by line.  The returned
ContractState holds the slot values as persisted by the call: note that
the insertion of the sender into the hatcher set (line 127) mutates only
the local phase value and PHASE.save runs only inside the transition
branch (line 136), where it stores Open; outside that branch the phase
slot keeps its pre-call value. -/
def execute_buy (curve_fn : CurveFn) (st : ContractState) (sender : String)
    (funds : List Coin) : Except Err (ContractState × Response) :=
  match must_pay funds st.curve_state.reserve_denom with
  | .error e => .error e
  | .ok payment =>
    let phaseRes : Except Err CommonsPhase :=
      match st.phase with
      | .Hatch hatch_phase =>
        match st.phase_config.hatch.assert_allowlisted sender with
        | .error e => .error e
        | .ok _ =>
          -- the updated hatcher set exists only in this local value
          let _hatchers := hatch_phase.hatchers.insert sender
          match uAdd st.curve_state.reserve payment with
          | .error e => .error e
          | .ok total =>
            if st.phase_config.hatch.initial_raise.2 ≤ total then
              .ok CommonsPhase.Open
            else
              .ok st.phase
      | .Open => .ok st.phase
      | .Closed => .ok st.phase
    match phaseRes with
    | .error e => .error e
    | .ok phaseSlot =>
      match uAdd st.curve_state.reserve payment with
      | .error e => .error e
      | .ok reserveAfter =>
        let curve := curve_fn st.curve_state.decimals
        let new_supply := curve.supply reserveAfter
        match checkedSub new_supply st.curve_state.supply with
        | .error e => .error e
        | .ok minted =>
          let curve_state : CurveState :=
            { st.curve_state with reserve := reserveAfter, supply := new_supply }
          .ok ({ st with curve_state := curve_state, phase := phaseSlot },
            { messages := [Msg.mintTokens st.supply_denom minted sender],
              attributes := [("action", "buy"), ("from", sender),
                ("reserve", Nat.repr payment), ("supply", Nat.repr minted)] })

/-- execute_sell from contract.rs, translated line by line.  The burn
intent carries the attached payment while the supply reduction uses the
amount parameter; the bank send releases the reserve difference. -/
def execute_sell (curve_fn : CurveFn) (st : ContractState) (sender : String)
    (funds : List Coin) (amount : Nat) : Except Err (ContractState × Response) :=
  let receiver := sender
  let denom := st.supply_denom
  match must_pay funds denom with
  | .error e => .error e
  | .ok payment =>
    let state := st.curve_state
    let curve := curve_fn state.decimals
    match checkedSub state.supply amount with
    | .error e => .error e
    | .ok supplyAfter =>
      let new_reserve := curve.reserve supplyAfter
      match checkedSub state.reserve new_reserve with
      | .error e => .error e
      | .ok released =>
        let stateAfter : CurveState :=
          { state with supply := supplyAfter, reserve := new_reserve }
        .ok ({ st with curve_state := stateAfter },
          { messages := [Msg.bankSend receiver released state.reserve_denom,
              Msg.burnTokens denom payment sender],
            attributes := [("action", "burn"), ("from", sender),
              ("supply", Nat.repr amount), ("reserve", Nat.repr released)] })

/-- ExecuteMsg from msg.rs. -/
inductive ExecuteMsg where
  | Buy
  | Burn (amount : Nat)
  deriving DecidableEq, Repr

/-- do_execute from contract.rs: dispatch on the message. -/
def do_execute (curve_fn : CurveFn) (st : ContractState) (sender : String)
    (funds : List Coin) (msg : ExecuteMsg) : Except Err (ContractState × Response) :=
  match msg with
  | .Buy => execute_buy curve_fn st sender funds
  | .Burn amount => execute_sell curve_fn st sender funds amount

/-- Transactional commit of a buy, as enforced by the host: the state
persists only when the call succeeds; on any error every write of the
call is discarded. -/
def buyStep (curve_fn : CurveFn) (st : ContractState) (sender : String)
    (funds : List Coin) : ContractState :=
  match execute_buy curve_fn st sender funds with
  | .ok (stAfter, _) => stAfter
  | .error _ => st

/-- Transactional commit of a sequence of buys. -/
def buySeq (curve_fn : CurveFn) (st : ContractState)
    (inputs : List (String × List Coin)) : ContractState :=
  inputs.foldl (fun s i => buyStep curve_fn s i.1 i.2) st

/-- Transactional commit of a sell, as enforced by the host. -/
def sellStep (curve_fn : CurveFn) (st : ContractState) (sender : String)
    (funds : List Coin) (amount : Nat) : ContractState :=
  match execute_sell curve_fn st sender funds amount with
  | .ok (stAfter, _) => stAfter
  | .error _ => st

/-- The storage slots as left by instantiate; a slot the call never
writes is none. -/
structure InstStorage where
  supply_denom : Option String
  curve_state : Option CurveState
  curve_type : Option CurveType
  phase_config : Option CommonsPhaseConfig
  phase : Option CommonsPhase
  deriving DecidableEq, Repr

/-- instantiate from contract.rs, translated line by line: rejects
attached funds, validates the message, records the full factory denom,
saves the curve state and type and the phase config, and emits the
create-denom intent.  No write to the PHASE slot appears in the source,
so the phase slot stays none. -/
def instantiate (contract_address : String) (funds : List Coin)
    (msg : InstantiateMsg) : Except Err (InstStorage × Response) :=
  match nonpayable funds with
  | .error e => .error e
  | .ok _ =>
    match msg.validate with
    | .error e => .error e
    | .ok _ =>
      let create_supply_denom_msg := Msg.createDenom msg.supply.subdenom msg.supply.metadata
      let denom := "factory" ++ "/" ++ contract_address ++ "/" ++ msg.supply.subdenom
      let normalization_places := DecimalPlaces.new msg.supply.decimals msg.reserve.decimals
      let curve_state := CurveState.new msg.reserve.denom normalization_places
      .ok ({ supply_denom := some denom,
             curve_state := some curve_state,
             curve_type := some msg.curve_type,
             phase_config := some msg.phase_config,
             phase := none },
           { messages := [create_supply_denom_msg], attributes := [] })

/-- A success test on results, used by concrete evaluations. -/
def resultOk {α : Type} : Except Err α → Bool
  | .ok _ => true
  | .error _ => false

/-! Concrete fixtures used by the witness and counterexample theorems.
They follow the default_instantiate test fixture of contract.rs
(reserve denom satoshi, initial_raise (1, 100), no allowlist). -/

/-- A concrete curve assignment for evaluation: the identity curve. -/
def cfId : CurveFn := fun _ => { supply := fun r => r, reserve := fun s => s }

/-- Decimal places of the test fixture. -/
def dpW : DecimalPlaces := { supply := 2, reserve := 8 }

/-- Hatch configuration of the test fixture. -/
def hatchCfgW : HatchConfig :=
  { allowlist := none, initial_raise := (1, 100), initial_price := 1,
    initial_allocation := 10, reserve_percentage := 10 }

/-- Phase configuration of the test fixture. -/
def cfgW : CommonsPhaseConfig := { hatch := hatchCfgW }

/-- Fresh curve state of the test fixture. -/
def csW : CurveState := { reserve := 0, supply := 0, reserve_denom := "satoshi", decimals := dpW }

/-- Contract state in the Hatch phase with an empty hatcher set. -/
def stHatchW : ContractState :=
  { curve_state := csW, phase := .Hatch { hatchers := [] }, phase_config := cfgW,
    supply_denom := "factory/contract/subdenom" }

/-- Contract state in the Open phase. -/
def stOpenW : ContractState := { stHatchW with phase := .Open }

/-- Contract state in the Closed phase. -/
def stClosedW : ContractState := { stHatchW with phase := .Closed }

/-- Contract state with some outstanding supply, used by sell fixtures. -/
def stSellW : ContractState :=
  { stHatchW with curve_state := { csW with reserve := 50, supply := 50 } }

/-- Contract state whose reserve sits at the Uint128 maximum. -/
def stMaxW : ContractState :=
  { stHatchW with phase := .Open, curve_state := { csW with reserve := UINT128_MAX } }

/-- Instantiate message of the test fixture. -/
def msgW : InstantiateMsg :=
  { supply := { subdenom := "subdenom",
                metadata := { name := some "Bonded", symbol := some "EPOXY", description := none },
                decimals := 2 },
    reserve := { denom := "satoshi", decimals := 8 },
    curve_type := .squareRoot 1 1,
    phase_config := cfgW }

/-- Funds fixture: five reserve tokens. -/
def fundsResW : List Coin := [{ denom := "satoshi", amount := 5 }]

/-- Funds fixture: 150 reserve tokens, enough to cross the raise max. -/
def fundsCrossW : List Coin := [{ denom := "satoshi", amount := 150 }]

/-- Funds fixture: five supply tokens. -/
def fundsSupW : List Coin := [{ denom := "factory/contract/subdenom", amount := 5 }]

/-- Expected committed state of a five-token buy from the fresh state. -/
def buyResW : ContractState :=
  { stHatchW with curve_state := { csW with reserve := 5, supply := 5 } }

/-- Expected response of a five-token buy from the fresh state. -/
def buyRespW : Response :=
  { messages := [Msg.mintTokens "factory/contract/subdenom" 5 "alice"],
    attributes := [("action", "buy"), ("from", "alice"), ("reserve", "5"), ("supply", "5")] }

/-- Expected committed state of a threshold-crossing 150-token buy. -/
def buyCrossResW : ContractState :=
  { stHatchW with curve_state := { csW with reserve := 150, supply := 150 },
                  phase := CommonsPhase.Open }

/-- Expected response of a threshold-crossing 150-token buy. -/
def buyCrossRespW : Response :=
  { messages := [Msg.mintTokens "factory/contract/subdenom" 150 "alice"],
    attributes := [("action", "buy"), ("from", "alice"), ("reserve", "150"),
                   ("supply", "150")] }

/-- Expected committed state of a two-token burn from stSellW. -/
def sellResW : ContractState :=
  { stSellW with curve_state := { csW with reserve := 48, supply := 48 } }

/-- Expected response of a two-token burn from stSellW with a
five-token attached payment. -/
def sellRespW : Response :=
  { messages := [Msg.bankSend "carol" 2 "satoshi",
                 Msg.burnTokens "factory/contract/subdenom" 5 "carol"],
    attributes := [("action", "burn"), ("from", "carol"), ("supply", "2"),
                   ("reserve", "2")] }

/-- The sell fixture state moved to the Closed phase. -/
def stSellClosedW : ContractState := { stSellW with phase := CommonsPhase.Closed }

/-- A curve assignment whose supply map is constantly zero, used to
drive the mint subtraction of a buy into its overflow branch. -/
def cfZero : CurveFn := fun _ => { supply := fun _ => 0, reserve := fun _ => 0 }

/-- Hatch-phase fixture with outstanding supply 50. -/
def stHatchSupW : ContractState :=
  { stHatchW with curve_state := { csW with supply := 50 } }

/-! Inversion lemmas characterising the successful runs of the two
execute paths; the claim theorems below are all derived from these. -/

lemma uAdd_ok {a b c : Nat} (h : uAdd a b = .ok c) :
    a + b ≤ UINT128_MAX ∧ c = a + b := by
  unfold uAdd at h
  split at h
  · exact ⟨by assumption, (Except.ok.injEq _ _).mp h |>.symm⟩
  · exact absurd h (by simp)

lemma checkedSub_ok {a b c : Nat} (h : checkedSub a b = .ok c) :
    b ≤ a ∧ c = a - b := by
  unfold checkedSub at h
  split at h
  · exact ⟨by assumption, (Except.ok.injEq _ _).mp h |>.symm⟩
  · exact absurd h (by simp)

lemma checkedSub_err {a b : Nat} (h : a < b) : checkedSub a b = .error .overflow := by
  unfold checkedSub
  rw [if_neg (by omega)]

lemma uAdd_err {a b : Nat} (h : UINT128_MAX < a + b) : uAdd a b = .error .panic := by
  unfold uAdd
  rw [if_neg (by omega)]

/-- Inversion of a successful execute_sell run: the payment was a single
nonzero coin of the supply denom, the amount fit under the supply, and
the resulting state and response are exactly as assembled by the code. -/
lemma execute_sell_ok_inv {cf : CurveFn} {st : ContractState} {sender : String}
    {funds : List Coin} {amount : Nat} {st2 : ContractState} {resp : Response}
    (hok : execute_sell cf st sender funds amount = .ok (st2, resp)) :
    ∃ p, must_pay funds st.supply_denom = .ok p ∧
      amount ≤ st.curve_state.supply ∧
      (cf st.curve_state.decimals).reserve (st.curve_state.supply - amount) ≤
        st.curve_state.reserve ∧
      st2 = { st with curve_state := { st.curve_state with
                                        supply := st.curve_state.supply - amount,
                                        reserve := (cf st.curve_state.decimals).reserve
                                          (st.curve_state.supply - amount) } } ∧
      resp = { messages := [Msg.bankSend sender
                              (st.curve_state.reserve -
                                (cf st.curve_state.decimals).reserve
                                  (st.curve_state.supply - amount))
                              st.curve_state.reserve_denom,
                            Msg.burnTokens st.supply_denom p sender],
               attributes := [("action", "burn"), ("from", sender),
                              ("supply", Nat.repr amount),
                              ("reserve", Nat.repr (st.curve_state.reserve -
                                (cf st.curve_state.decimals).reserve
                                  (st.curve_state.supply - amount)))] } := by
  unfold execute_sell at hok
  dsimp only at hok
  cases hmp : must_pay funds st.supply_denom with
  | error e => rw [hmp] at hok; exact absurd hok (by simp)
  | ok payment =>
    rw [hmp] at hok
    dsimp only at hok
    cases hs1 : checkedSub st.curve_state.supply amount with
    | error e => rw [hs1] at hok; exact absurd hok (by simp)
    | ok supplyAfter =>
      rw [hs1] at hok
      dsimp only at hok
      obtain ⟨hle1, hv1⟩ := checkedSub_ok hs1
      cases hs2 : checkedSub st.curve_state.reserve
          ((cf st.curve_state.decimals).reserve supplyAfter) with
      | error e => rw [hs2] at hok; exact absurd hok (by simp)
      | ok released =>
        rw [hs2] at hok
        dsimp only at hok
        obtain ⟨hle2, hv2⟩ := checkedSub_ok hs2
        obtain ⟨h1, h2⟩ := Prod.mk.injEq _ _ _ _ |>.mp ((Except.ok.injEq _ _).mp hok)
        subst hv1 hv2
        subst h1 h2
        exact ⟨payment, rfl, hle1, hle2, rfl, rfl⟩

/-- Inversion of a successful execute_buy run: the payment was a single
nonzero coin of the reserve denom, both Uint128 additions stayed in
range, the curve supply did not shrink, the state and response are
exactly as assembled by the code, and the persisted phase slot is Open
on a threshold-crossing Hatch buy and the pre-call value otherwise (in
particular the hatcher insertion of line 127 never reaches the slot). -/
lemma execute_buy_ok_inv {cf : CurveFn} {st : ContractState} {sender : String}
    {funds : List Coin} {st2 : ContractState} {resp : Response}
    (hok : execute_buy cf st sender funds = .ok (st2, resp)) :
    ∃ p phaseSlot,
      must_pay funds st.curve_state.reserve_denom = .ok p ∧
      st.curve_state.reserve + p ≤ UINT128_MAX ∧
      st.curve_state.supply ≤
        (cf st.curve_state.decimals).supply (st.curve_state.reserve + p) ∧
      st2 = { st with
                curve_state := { st.curve_state with
                                   reserve := st.curve_state.reserve + p,
                                   supply := (cf st.curve_state.decimals).supply
                                     (st.curve_state.reserve + p) },
                phase := phaseSlot } ∧
      resp = { messages := [Msg.mintTokens st.supply_denom
                              ((cf st.curve_state.decimals).supply
                                  (st.curve_state.reserve + p) - st.curve_state.supply)
                              sender],
               attributes := [("action", "buy"), ("from", sender),
                              ("reserve", Nat.repr p),
                              ("supply", Nat.repr ((cf st.curve_state.decimals).supply
                                (st.curve_state.reserve + p) - st.curve_state.supply))] } ∧
      (match st.phase with
       | CommonsPhase.Hatch _ =>
           st.phase_config.hatch.assert_allowlisted sender = .ok () ∧
           phaseSlot = (if st.phase_config.hatch.initial_raise.2 ≤
                            st.curve_state.reserve + p
                        then CommonsPhase.Open else st.phase)
       | _ => phaseSlot = st.phase) := by
  unfold execute_buy at hok
  cases hmp : must_pay funds st.curve_state.reserve_denom with
  | error e => rw [hmp] at hok; exact absurd hok (by simp)
  | ok payment =>
    rw [hmp] at hok
    dsimp only at hok
    cases hph : st.phase with
    | Hatch hp =>
      rw [hph] at hok
      dsimp only at hok
      cases hal : st.phase_config.hatch.assert_allowlisted sender with
      | error e => rw [hal] at hok; exact absurd hok (by simp)
      | ok u =>
        cases u
        rw [hal] at hok
        dsimp only at hok
        cases hadd : uAdd st.curve_state.reserve payment with
        | error e => rw [hadd] at hok; exact absurd hok (by simp)
        | ok total =>
          rw [hadd] at hok
          dsimp only at hok
          obtain ⟨hle, hv⟩ := uAdd_ok hadd
          subst hv
          by_cases hth : st.phase_config.hatch.initial_raise.2 ≤
              st.curve_state.reserve + payment
          · rw [if_pos hth] at hok
            dsimp only at hok
            cases hsub : checkedSub
                ((cf st.curve_state.decimals).supply (st.curve_state.reserve + payment))
                st.curve_state.supply with
            | error e => rw [hsub] at hok; exact absurd hok (by simp)
            | ok minted =>
              rw [hsub] at hok
              dsimp only at hok
              obtain ⟨hle2, hv2⟩ := checkedSub_ok hsub
              subst hv2
              obtain ⟨h1, h2⟩ := Prod.mk.injEq _ _ _ _ |>.mp ((Except.ok.injEq _ _).mp hok)
              subst h1 h2
              refine ⟨payment, _, rfl, hle, hle2, rfl, rfl, ?_⟩
              exact ⟨rfl, by rw [if_pos hth]⟩
          · rw [if_neg hth] at hok
            dsimp only at hok
            cases hsub : checkedSub
                ((cf st.curve_state.decimals).supply (st.curve_state.reserve + payment))
                st.curve_state.supply with
            | error e => rw [hsub] at hok; exact absurd hok (by simp)
            | ok minted =>
              rw [hsub] at hok
              dsimp only at hok
              obtain ⟨hle2, hv2⟩ := checkedSub_ok hsub
              subst hv2
              obtain ⟨h1, h2⟩ := Prod.mk.injEq _ _ _ _ |>.mp ((Except.ok.injEq _ _).mp hok)
              subst h1 h2
              refine ⟨payment, _, rfl, hle, hle2, rfl, rfl, ?_⟩
              exact ⟨rfl, by rw [if_neg hth]⟩
    | Open =>
      rw [hph] at hok
      dsimp only at hok
      cases hadd : uAdd st.curve_state.reserve payment with
      | error e => rw [hadd] at hok; exact absurd hok (by simp)
      | ok total =>
        rw [hadd] at hok
        dsimp only at hok
        obtain ⟨hle, hv⟩ := uAdd_ok hadd
        subst hv
        cases hsub : checkedSub
            ((cf st.curve_state.decimals).supply (st.curve_state.reserve + payment))
            st.curve_state.supply with
        | error e => rw [hsub] at hok; exact absurd hok (by simp)
        | ok minted =>
          rw [hsub] at hok
          dsimp only at hok
          obtain ⟨hle2, hv2⟩ := checkedSub_ok hsub
          subst hv2
          obtain ⟨h1, h2⟩ := Prod.mk.injEq _ _ _ _ |>.mp ((Except.ok.injEq _ _).mp hok)
          subst h1 h2
          exact ⟨payment, CommonsPhase.Open, rfl, hle, hle2, rfl, rfl, rfl⟩
    | Closed =>
      rw [hph] at hok
      dsimp only at hok
      cases hadd : uAdd st.curve_state.reserve payment with
      | error e => rw [hadd] at hok; exact absurd hok (by simp)
      | ok total =>
        rw [hadd] at hok
        dsimp only at hok
        obtain ⟨hle, hv⟩ := uAdd_ok hadd
        subst hv
        cases hsub : checkedSub
            ((cf st.curve_state.decimals).supply (st.curve_state.reserve + payment))
            st.curve_state.supply with
        | error e => rw [hsub] at hok; exact absurd hok (by simp)
        | ok minted =>
          rw [hsub] at hok
          dsimp only at hok
          obtain ⟨hle2, hv2⟩ := checkedSub_ok hsub
          subst hv2
          obtain ⟨h1, h2⟩ := Prod.mk.injEq _ _ _ _ |>.mp ((Except.ok.injEq _ _).mp hok)
          subst h1 h2
          exact ⟨payment, CommonsPhase.Closed, rfl, hle, hle2, rfl, rfl, rfl⟩

/-- A buy from the Open phase can never change the persisted phase: the
Open arm of the match does nothing and the only PHASE.save sits inside
the Hatch arm. -/
lemma buyStep_open {cf : CurveFn} {st : ContractState} {sender : String}
    {funds : List Coin} (h : st.phase = CommonsPhase.Open) :
    (buyStep cf st sender funds).phase = CommonsPhase.Open := by
  unfold buyStep
  cases hres : execute_buy cf st sender funds with
  | error e => exact h
  | ok pr =>
    obtain ⟨st2, resp⟩ := pr
    obtain ⟨p, phaseSlot, _, _, _, hst2, _, hmatch⟩ := execute_buy_ok_inv hres
    rw [h] at hmatch
    dsimp only at hmatch
    subst hst2
    dsimp only
    rw [hmatch]

/-- No sequence of buys leaves the Open phase. -/
lemma buySeq_open {cf : CurveFn} :
    ∀ (inputs : List (String × List Coin)) (st : ContractState),
      st.phase = CommonsPhase.Open → (buySeq cf st inputs).phase = CommonsPhase.Open := by
  intro inputs
  induction inputs with
  | nil => intro st h; exact h
  | cons i rest ih =>
      intro st h
      have hstep : (buyStep cf st i.1 i.2).phase = CommonsPhase.Open := buyStep_open h
      simpa [buySeq, List.foldl] using ih (buyStep cf st i.1 i.2) hstep

/-- C9: for every Buy that fails with any error, no partial mutation is
visible — the committed contract state (curve state and phase slot
alike) equals the pre-call state, the host discarding all writes of a
failed call (including a PHASE.save performed before a later mint
failure). -/
theorem buy_failure_atomic (cf : CurveFn) (st : ContractState) (sender : String)
    (funds : List Coin) (e : Err)
    (herr : execute_buy cf st sender funds = .error e) :
    buyStep cf st sender funds = st := by
  unfold buyStep
  rw [herr]

/-- Witness for buy_failure_atomic: a threshold-crossing Hatch buy that
fails afterwards in the mint computation (the curve supply shrinks, so
checked_sub returns the overflow error) commits nothing — in
particular the phase slot stays Hatch even though the threshold was
reached before the failure. -/
theorem buy_failure_atomic_witness :
    buyStep cfZero stHatchSupW "alice" fundsCrossW = stHatchSupW :=
  buy_failure_atomic cfZero stHatchSupW "alice" fundsCrossW Err.overflow rfl

/-- C7: for every successful Buy with payment p, the committed reserve
is exactly reserve_before + p, the committed supply is
curve.supply(reserve_after), and the supply never shrinks. -/
theorem buy_conservation (cf : CurveFn) (st : ContractState) (sender : String)
    (funds : List Coin) (p : Nat) (st2 : ContractState) (resp : Response)
    (hok : execute_buy cf st sender funds = .ok (st2, resp))
    (hpay : must_pay funds st.curve_state.reserve_denom = .ok p) :
    st2.curve_state.reserve = st.curve_state.reserve + p ∧
    st2.curve_state.supply =
      (cf st.curve_state.decimals).supply (st.curve_state.reserve + p) ∧
    st.curve_state.supply ≤ st2.curve_state.supply := by
  obtain ⟨q, phaseSlot, hq, _, hle2, hst2, _, _⟩ := execute_buy_ok_inv hok
  rw [hpay] at hq
  obtain rfl : p = q := (Except.ok.injEq _ _).mp hq
  subst hst2
  exact ⟨rfl, rfl, hle2⟩

/-- Witness for buy_conservation: the five-token buy from the fresh
state commits reserve 5 and supply 5. -/
theorem buy_conservation_witness :
    buyResW.curve_state.reserve = stHatchW.curve_state.reserve + 5 ∧
    buyResW.curve_state.supply =
      (cfId stHatchW.curve_state.decimals).supply (stHatchW.curve_state.reserve + 5) ∧
    stHatchW.curve_state.supply ≤ buyResW.curve_state.supply :=
  buy_conservation cfId stHatchW "alice" fundsResW 5 buyResW buyRespW rfl rfl

/-- C4 (amended): for every successful Burn, the emitted burn intent
burns exactly the attached supply-token payment — not the amount
parameter, with which it may disagree — and the transfer intent sends
exactly the released reserve difference to the seller. -/
theorem burn_intents_amounts (cf : CurveFn) (st : ContractState) (sender : String)
    (funds : List Coin) (amount : Nat) (p : Nat) (st2 : ContractState) (resp : Response)
    (hok : execute_sell cf st sender funds amount = .ok (st2, resp))
    (hpay : must_pay funds st.supply_denom = .ok p) :
    resp.messages =
      [Msg.bankSend sender (st.curve_state.reserve - st2.curve_state.reserve)
         st.curve_state.reserve_denom,
       Msg.burnTokens st.supply_denom p sender] := by
  obtain ⟨q, hq, _, _, hst2, hresp⟩ := execute_sell_ok_inv hok
  rw [hpay] at hq
  obtain rfl : p = q := (Except.ok.injEq _ _).mp hq
  subst hst2
  subst hresp
  rfl

/-- Witness for burn_intents_amounts: the two-token burn with a
five-token payment emits a two-token send and a five-token burn. -/
theorem burn_intents_amounts_witness :
    sellRespW.messages =
      [Msg.bankSend "carol" (stSellW.curve_state.reserve - sellResW.curve_state.reserve)
         stSellW.curve_state.reserve_denom,
       Msg.burnTokens stSellW.supply_denom 5 "carol"] :=
  burn_intents_amounts cfId stSellW "carol" fundsSupW 2 5 sellResW sellRespW rfl rfl

/-- C4 (counterexample): a successful Burn whose amount parameter is 2
but whose attached payment is 5 emits a burn intent for 5, not for the
amount parameter by which the supply was reduced. -/
theorem burn_intent_uses_payment_cex :
    execute_sell cfId stSellW "carol" fundsSupW 2 = .ok (sellResW, sellRespW) ∧
    Msg.burnTokens "factory/contract/subdenom" 5 "carol" ∈ sellRespW.messages ∧
    Msg.burnTokens "factory/contract/subdenom" 2 "carol" ∉ sellRespW.messages :=
  ⟨rfl, by decide, by decide⟩

/-- C6: every successful Burn(amount) reduces the supply by exactly
amount, sets the reserve to curve.reserve(supply_after), and releases
reserve_before - curve.reserve(supply_after); a Burn of more than the
outstanding supply (with a valid payment) fails with the overflow error
and commits nothing. -/
theorem sell_conservation (cf : CurveFn) (st : ContractState) (sender : String)
    (funds : List Coin) (amount : Nat) :
    (∀ st2 resp, execute_sell cf st sender funds amount = .ok (st2, resp) →
        amount ≤ st.curve_state.supply ∧
        st2.curve_state.supply = st.curve_state.supply - amount ∧
        st2.curve_state.reserve =
          (cf st.curve_state.decimals).reserve (st.curve_state.supply - amount) ∧
        Msg.bankSend sender
            (st.curve_state.reserve -
              (cf st.curve_state.decimals).reserve (st.curve_state.supply - amount))
            st.curve_state.reserve_denom ∈ resp.messages) ∧
    (∀ p, must_pay funds st.supply_denom = .ok p → st.curve_state.supply < amount →
        execute_sell cf st sender funds amount = .error Err.overflow ∧
        sellStep cf st sender funds amount = st) := by
  constructor
  · intro st2 resp hok
    obtain ⟨q, _, hle, _, hst2, hresp⟩ := execute_sell_ok_inv hok
    subst hst2
    subst hresp
    exact ⟨hle, rfl, rfl, List.mem_cons_self _ _⟩
  · intro p hpay hlt
    have herr : execute_sell cf st sender funds amount = .error Err.overflow := by
      unfold execute_sell
      dsimp only
      rw [hpay]
      dsimp only
      rw [checkedSub_err hlt]
    refine ⟨herr, ?_⟩
    unfold sellStep
    rw [herr]

/-- Witness for sell_conservation: the success branch on the two-token
burn fixture and the failure branch on a 100-token burn from a supply
of 50. -/
theorem sell_conservation_witness :
    sellResW.curve_state.supply = stSellW.curve_state.supply - 2 ∧
    execute_sell cfId stSellW "carol" fundsSupW 100 = .error Err.overflow := by
  refine ⟨((sell_conservation cfId stSellW "carol" fundsSupW 2).1 sellResW sellRespW
    rfl).2.1, ?_⟩
  exact ((sell_conservation cfId stSellW "carol" fundsSupW 100).2 5
    rfl (by decide)).1

/-- C10: Burn never reads or writes the phase or the phase config — two
states agreeing on the curve state and the supply denom give the same
curve-state outcome and response regardless of their phases and phase
configs, and a committed Burn leaves the phase and phase-config slots
exactly as they were. -/
theorem sell_ignores_phase (cf : CurveFn) (stA stB : ContractState) (sender : String)
    (funds : List Coin) (amount : Nat)
    (hcs : stA.curve_state = stB.curve_state)
    (hsd : stA.supply_denom = stB.supply_denom) :
    Except.map (fun r => (r.1.curve_state, r.2))
        (execute_sell cf stA sender funds amount) =
      Except.map (fun r => (r.1.curve_state, r.2))
        (execute_sell cf stB sender funds amount) ∧
    (sellStep cf stA sender funds amount).phase = stA.phase ∧
    (sellStep cf stA sender funds amount).phase_config = stA.phase_config := by
  refine ⟨?_, ?_, ?_⟩
  · unfold execute_sell
    dsimp only
    rw [hcs, hsd]
    cases must_pay funds stB.supply_denom with
    | error e => rfl
    | ok payment =>
      dsimp only
      cases checkedSub stB.curve_state.supply amount with
      | error e => rfl
      | ok supplyAfter =>
        dsimp only
        cases checkedSub stB.curve_state.reserve
            ((cf stB.curve_state.decimals).reserve supplyAfter) with
        | error e => rfl
        | ok released => rfl
  · unfold sellStep
    cases hres : execute_sell cf stA sender funds amount with
    | error e => rfl
    | ok pr =>
      obtain ⟨st2, resp⟩ := pr
      obtain ⟨q, _, _, _, hst2, _⟩ := execute_sell_ok_inv hres
      subst hst2
      rfl
  · unfold sellStep
    cases hres : execute_sell cf stA sender funds amount with
    | error e => rfl
    | ok pr =>
      obtain ⟨st2, resp⟩ := pr
      obtain ⟨q, _, _, _, hst2, _⟩ := execute_sell_ok_inv hres
      subst hst2
      rfl

/-- Witness for sell_ignores_phase: moving the sell fixture to the
Closed phase changes neither the curve-state outcome nor the response,
and the committed step keeps phase and phase config. -/
theorem sell_ignores_phase_witness :
    Except.map (fun r => (r.1.curve_state, r.2))
        (execute_sell cfId stSellW "carol" fundsSupW 2) =
      Except.map (fun r => (r.1.curve_state, r.2))
        (execute_sell cfId stSellClosedW "carol" fundsSupW 2) ∧
    (sellStep cfId stSellW "carol" fundsSupW 2).phase = stSellW.phase ∧
    (sellStep cfId stSellW "carol" fundsSupW 2).phase_config = stSellW.phase_config :=
  sell_ignores_phase cfId stSellW stSellClosedW "carol" fundsSupW 2 rfl rfl

/-- C8: starting from Hatch, a successful Buy commits the Open phase
exactly when the post-payment reserve reaches the configured raise
maximum; below the threshold the phase slot keeps its pre-call value,
and once Open no sequence of buys ever moves the phase again. -/
theorem hatch_open_transition (cf : CurveFn) (st : ContractState) (sender : String)
    (funds : List Coin) (hp : HatchPhase) (p : Nat) (st2 : ContractState) (resp : Response)
    (hphase : st.phase = CommonsPhase.Hatch hp)
    (hok : execute_buy cf st sender funds = .ok (st2, resp))
    (hpay : must_pay funds st.curve_state.reserve_denom = .ok p) :
    (st2.phase = CommonsPhase.Open ↔
       st.phase_config.hatch.initial_raise.2 ≤ st.curve_state.reserve + p) ∧
    (st.curve_state.reserve + p < st.phase_config.hatch.initial_raise.2 →
       st2.phase = st.phase) ∧
    (∀ (stO : ContractState) (inputs : List (String × List Coin)),
       stO.phase = CommonsPhase.Open →
       (buySeq cf stO inputs).phase = CommonsPhase.Open) := by
  obtain ⟨q, phaseSlot, hq, _, _, hst2, _, hmatch⟩ := execute_buy_ok_inv hok
  rw [hpay] at hq
  obtain rfl : p = q := (Except.ok.injEq _ _).mp hq
  rw [hphase] at hmatch
  dsimp only at hmatch
  obtain ⟨-, hslot⟩ := hmatch
  subst hst2
  dsimp only
  refine ⟨?_, ?_, fun stO inputs h => buySeq_open inputs stO h⟩
  · by_cases hth : st.phase_config.hatch.initial_raise.2 ≤ st.curve_state.reserve + p
    · rw [hslot, if_pos hth]
      exact ⟨fun _ => hth, fun _ => rfl⟩
    · rw [hslot, if_neg hth]
      constructor
      · intro hc
        exact CommonsPhase.noConfusion hc
      · intro hc
        exact absurd hc hth
  · intro hlt
    rw [hslot, if_neg (by omega), hphase]

/-- Witness for hatch_open_transition: the 150-token buy crosses the
raise maximum of 100 and commits the Open phase. -/
theorem hatch_open_transition_witness :
    (buyCrossResW.phase = CommonsPhase.Open ↔
       stHatchW.phase_config.hatch.initial_raise.2 ≤ stHatchW.curve_state.reserve + 150) ∧
    (stHatchW.curve_state.reserve + 150 < stHatchW.phase_config.hatch.initial_raise.2 →
       buyCrossResW.phase = stHatchW.phase) ∧
    (∀ (stO : ContractState) (inputs : List (String × List Coin)),
       stO.phase = CommonsPhase.Open →
       (buySeq cfId stO inputs).phase = CommonsPhase.Open) :=
  hatch_open_transition cfId stHatchW "alice" fundsCrossW { hatchers := [] } 150
    buyCrossResW buyCrossRespW rfl rfl rfl

/-- C3 (counterexample): a Buy executed while the phase is Closed is
not rejected — it succeeds, commits an updated CurveState, and emits a
mint intent. -/
theorem closed_buy_accepted_cex :
    execute_buy cfId stClosedW "bob" fundsResW =
      .ok ({ stClosedW with curve_state := { csW with reserve := 5, supply := 5 } },
           { messages := [Msg.mintTokens "factory/contract/subdenom" 5 "bob"],
             attributes := [("action", "buy"), ("from", "bob"), ("reserve", "5"),
                            ("supply", "5")] }) := rfl

/-- C3 (amended): during Closed the buy path is not rejected: whenever
the payment is valid and the arithmetic stays in range, the buy
proceeds exactly like an Open-phase buy — CurveState is updated, a mint
intent is emitted, and the phase slot stays Closed. -/
theorem closed_buy_proceeds_like_open (cf : CurveFn) (st : ContractState)
    (sender : String) (funds : List Coin) (p : Nat)
    (hphase : st.phase = CommonsPhase.Closed)
    (hpay : must_pay funds st.curve_state.reserve_denom = .ok p)
    (hadd : st.curve_state.reserve + p ≤ UINT128_MAX)
    (hsub : st.curve_state.supply ≤
      (cf st.curve_state.decimals).supply (st.curve_state.reserve + p)) :
    execute_buy cf st sender funds =
      .ok ({ st with
               curve_state := { st.curve_state with
                                  reserve := st.curve_state.reserve + p,
                                  supply := (cf st.curve_state.decimals).supply
                                    (st.curve_state.reserve + p) },
               phase := CommonsPhase.Closed },
           { messages := [Msg.mintTokens st.supply_denom
                            ((cf st.curve_state.decimals).supply
                                (st.curve_state.reserve + p) - st.curve_state.supply)
                            sender],
             attributes := [("action", "buy"), ("from", sender), ("reserve", Nat.repr p),
                            ("supply", Nat.repr ((cf st.curve_state.decimals).supply
                              (st.curve_state.reserve + p) - st.curve_state.supply))] }) := by
  unfold execute_buy
  rw [hpay]
  dsimp only
  rw [hphase]
  dsimp only
  unfold uAdd
  rw [if_pos hadd]
  dsimp only
  unfold checkedSub
  rw [if_pos hsub]

/-- Witness for closed_buy_proceeds_like_open at the Closed fixture. -/
theorem closed_buy_proceeds_like_open_witness :
    execute_buy cfId stClosedW "bob" fundsCrossW =
      .ok ({ stClosedW with
               curve_state := { stClosedW.curve_state with
                                  reserve := stClosedW.curve_state.reserve + 150,
                                  supply := (cfId stClosedW.curve_state.decimals).supply
                                    (stClosedW.curve_state.reserve + 150) },
               phase := CommonsPhase.Closed },
           { messages := [Msg.mintTokens stClosedW.supply_denom
                            ((cfId stClosedW.curve_state.decimals).supply
                                (stClosedW.curve_state.reserve + 150) -
                              stClosedW.curve_state.supply)
                            "bob"],
             attributes := [("action", "buy"), ("from", "bob"), ("reserve", Nat.repr 150),
                            ("supply", Nat.repr ((cfId stClosedW.curve_state.decimals).supply
                              (stClosedW.curve_state.reserve + 150) -
                              stClosedW.curve_state.supply))] }) :=
  closed_buy_proceeds_like_open cfId stClosedW "bob" fundsCrossW 150
    rfl rfl (by decide) (by decide)

/-- C5 (counterexample): a Buy whose reserve update would exceed the
Uint128 range aborts with the modelled host panic of the unchecked
addition, which is not the returned OverflowError the claim names. -/
theorem buy_reserve_overflow_panics_cex :
    execute_buy cfId stMaxW "dave" [{ denom := "satoshi", amount := 1 }] =
      .error Err.panic ∧ Err.panic ≠ Err.overflow :=
  ⟨rfl, by decide⟩

/-- C5 (amended): a Buy whose reserve update would exceed the Uint128
range aborts through the panic of the unchecked addition (a host trap,
not a returned OverflowError) and commits nothing. -/
theorem buy_reserve_overflow_traps (cf : CurveFn) (st : ContractState)
    (sender : String) (funds : List Coin) (p : Nat)
    (hpay : must_pay funds st.curve_state.reserve_denom = .ok p)
    (hover : UINT128_MAX < st.curve_state.reserve + p)
    (hallow : ∀ h, st.phase = CommonsPhase.Hatch h →
       st.phase_config.hatch.assert_allowlisted sender = .ok ()) :
    execute_buy cf st sender funds = .error Err.panic ∧
    buyStep cf st sender funds = st := by
  have herr : execute_buy cf st sender funds = .error Err.panic := by
    unfold execute_buy
    rw [hpay]
    dsimp only
    cases hph : st.phase with
    | Hatch hp =>
      rw [hallow hp hph]
      dsimp only
      rw [uAdd_err hover]
    | Open =>
      dsimp only
      rw [uAdd_err hover]
    | Closed =>
      dsimp only
      rw [uAdd_err hover]
  refine ⟨herr, ?_⟩
  unfold buyStep
  rw [herr]

/-- Witness for buy_reserve_overflow_traps at the maximal-reserve
fixture. -/
theorem buy_reserve_overflow_traps_witness :
    execute_buy cfId stMaxW "frank" [{ denom := "satoshi", amount := 2 }] =
      .error Err.panic ∧
    buyStep cfId stMaxW "frank" [{ denom := "satoshi", amount := 2 }] = stMaxW :=
  buy_reserve_overflow_traps cfId stMaxW "frank" [{ denom := "satoshi", amount := 2 }] 2
    rfl (by decide) (fun h hh => CommonsPhase.noConfusion hh)

/-- C1: the insertion of the buyer into the hatcher set is never
persisted — a successful Hatch-phase buy leaves the stored hatcher set
empty, so the buyer is not a member afterwards. -/
theorem hatch_buy_does_not_persist_hatcher :
    resultOk (execute_buy cfId stHatchW "alice" fundsResW) = true ∧
    (buyStep cfId stHatchW "alice" fundsResW).phase =
      CommonsPhase.Hatch { hatchers := [] } :=
  ⟨rfl, rfl⟩

/-- C2: instantiate with a valid message succeeds, stores the zeroed
CurveState and the create-denom intent, but never writes the phase
slot, which therefore does not hold Hatch with an empty hatcher set. -/
theorem instantiate_leaves_phase_slot_unset :
    instantiate "cosmos2contract" [] msgW =
      .ok ({ supply_denom := some "factory/cosmos2contract/subdenom",
             curve_state := some { reserve := 0, supply := 0, reserve_denom := "satoshi",
                                   decimals := { supply := 2, reserve := 8 } },
             curve_type := some (.squareRoot 1 1),
             phase_config := some cfgW,
             phase := none },
           { messages := [Msg.createDenom "subdenom"
                            { name := some "Bonded", symbol := some "EPOXY",
                              description := none }],
             attributes := [] }) ∧
    (none : Option CommonsPhase) ≠ some (CommonsPhase.Hatch { hatchers := [] }) :=
  ⟨rfl, by decide⟩

end CwAbc
